import Mathlib

/-!
Verification of the ECS service resource wrapper
(`phidata/infra/aws/resource/ecs/service.py`) against its natural-language
specification.  The Python class `EcsService` is embedded shallowly:

* optional pydantic fields become `Option` -valued structure fields;
* the boto3 client becomes a record of functions from a request payload
  (an ordered association list, mirroring Python keyword-argument dicts)
  to `Except AwsExc response`, where `AwsExc` distinguishes
  `botocore.ClientError` from other exceptions;
* the methods `_create`, `_read`, `_delete`, `_update` become state
  transformers on the `EcsService` structure that also record the remote
  calls they issue.
-/

/-- A JSON-like value as handled by boto3 request/response dictionaries.
`null` stands for Python `None`. -/
inductive Value where
  | null : Value
  | bool (b : Bool) : Value
  | int (n : Int) : Value
  | str (s : String) : Value
  | list (xs : List Value) : Value
  | dict (kvs : List (String × Value)) : Value

/-- Python `d.get(k, None)` on an ordered dict represented as an
association list: `some v` when the key is present (even when the stored
value is `null`), `none` when the key is absent. -/
def dictGet (kvs : List (String × Value)) (k : String) : Option Value :=
  (kvs.find? (fun p => p.1 == k)).map Prod.snd

/-- Python `==` between a looked-up dictionary value and a string: true
exactly when the key was present and held an equal string. -/
def valueEqStr (o : Option Value) (t : String) : Bool :=
  match o with
  | some (Value.str u) => u == t
  | _ => false

/-- The `EcsCluster` resource class is referenced by `service.py`
(`self.cluster.name`) but its own module is not part of this excerpt;
only its `name` attribute is used here. -/
structure EcsCluster where
  name : String
deriving DecidableEq, Repr

/-- Modelled from the spec: the `EcsTaskDefinition` resource class is
referenced by `service.py` (`self.task_definition.get_task_family()`) but
its module is missing from the excerpt; the spec describes the resolver
as returning "the object's name/task family", so the handle is modelled
as carrying its task family string. -/
structure EcsTaskDefinition where
  family : String
deriving DecidableEq, Repr

def EcsTaskDefinition.get_task_family (td : EcsTaskDefinition) : String :=
  td.family

/-- Field type `Optional[Union[EcsCluster, str]]` : a parent-cluster reference is
either an opaque name/ARN string or an object handle. -/
inductive ClusterRef where
  | handle (c : EcsCluster) : ClusterRef
  | byName (s : String) : ClusterRef
deriving DecidableEq, Repr

/-- Field type `Optional[Union[EcsTaskDefinition, str]]`. -/
inductive TaskDefRef where
  | handle (td : EcsTaskDefinition) : TaskDefRef
  | byName (s : String) : TaskDefRef
deriving DecidableEq, Repr

/-- Exceptions raised by remote calls.  `service.py` catches
`botocore.exceptions.ClientError` separately in `_read` (debug log only)
and everything else with `except Exception`. -/
inductive AwsExc where
  | clientError (msg : String) : AwsExc
  | otherExc (msg : String) : AwsExc
deriving DecidableEq, Repr

/-- The `EcsService` declarative resource: every configurable field of the
Python class, plus the mutable `active_resource` cache inherited from
`AwsResource`. -/
structure EcsService where
  name : String
  ecs_service_name : Option String := none
  cluster : Option ClusterRef := none
  task_definition : Option TaskDefRef := none
  load_balancers : Option (List Value) := none
  service_registries : Option (List Value) := none
  desired_count : Option Int := none
  client_token : Option String := none
  launch_type : Option String := none
  capacity_provider_strategy : Option (List Value) := none
  platform_version : Option String := none
  role : Option String := none
  deployment_configuration : Option (List (String × Value)) := none
  placement_constraints : Option (List Value) := none
  placement_strategy : Option (List Value) := none
  network_configuration : Option (List (String × Value)) := none
  health_check_grace_period_seconds : Option Int := none
  scheduling_strategy : Option String := none
  deployment_controller : Option (List (String × Value)) := none
  tags : Option (List Value) := none
  enable_ecsmanaged_tags : Option Bool := none
  propagate_tags : Option String := none
  enable_execute_command : Option Bool := none
  force_delete : Option Bool := none
  active_resource : Option Value := none

/-- Method `get_ecs_service_name`: `self.ecs_service_name or self.name`.
Python `or` falls through on any falsy value, so an explicit empty
string also falls back to `name`. -/
def get_ecs_service_name (s : EcsService) : String :=
  match s.ecs_service_name with
  | some n => if n = "" then s.name else n
  | none => s.name

/-- Method `get_ecs_cluster_name`: returns `cluster.name` for an object handle,
the string itself for a string, and `None` (falling off the end of the
method) when `cluster` is unset. -/
def get_ecs_cluster_name (s : EcsService) : Option String :=
  match s.cluster with
  | some (ClusterRef.handle c) => some c.name
  | some (ClusterRef.byName str) => some str
  | none => none

/-- Method `get_ecs_task_definition`: returns `task_definition.get_task_family()`
for an object handle, the string itself for a string, and `None` when
unset. -/
def get_ecs_task_definition (s : EcsService) : Option String :=
  match s.task_definition with
  | some (TaskDefRef.handle td) => some td.get_task_family
  | some (TaskDefRef.byName str) => some str
  | none => none

/-- One `if x is not None: d[k] = x` step of the payload construction. -/
def optEntry (k : String) (o : Option Value) : List (String × Value) :=
  match o with
  | some v => [(k, v)]
  | none => []

/-- The Python value passed for a keyword argument that is forwarded
unconditionally: `None` becomes an explicit `null`. -/
def valueOfOptStr (o : Option String) : Value :=
  match o with
  | some t => Value.str t
  | none => Value.null

/-- The `not_null_args` dict built by `_create` (source lines 89-134), in
source order, with each local field under its fixed wire name. -/
def create_args (s : EcsService) : List (String × Value) :=
  optEntry "cluster" ((get_ecs_cluster_name s).map Value.str) ++
  optEntry "loadBalancers" (s.load_balancers.map Value.list) ++
  optEntry "serviceRegistries" (s.service_registries.map Value.list) ++
  optEntry "desiredCount" (s.desired_count.map Value.int) ++
  optEntry "clientToken" (s.client_token.map Value.str) ++
  optEntry "launchType" (s.launch_type.map Value.str) ++
  optEntry "capacityProviderStrategy" (s.capacity_provider_strategy.map Value.list) ++
  optEntry "platformVersion" (s.platform_version.map Value.str) ++
  optEntry "role" (s.role.map Value.str) ++
  optEntry "deploymentConfiguration" (s.deployment_configuration.map Value.dict) ++
  optEntry "placementConstraints" (s.placement_constraints.map Value.list) ++
  optEntry "placementStrategy" (s.placement_strategy.map Value.list) ++
  optEntry "networkConfiguration" (s.network_configuration.map Value.dict) ++
  optEntry "healthCheckGracePeriodSeconds" (s.health_check_grace_period_seconds.map Value.int) ++
  optEntry "schedulingStrategy" (s.scheduling_strategy.map Value.str) ++
  optEntry "deploymentController" (s.deployment_controller.map Value.dict) ++
  optEntry "tags" (s.tags.map Value.list) ++
  optEntry "enableECSManagedTags" (s.enable_ecsmanaged_tags.map Value.bool) ++
  optEntry "propagateTags" (s.propagate_tags.map Value.str) ++
  optEntry "enableExecuteCommand" (s.enable_execute_command.map Value.bool)

/-- The full keyword-argument dict of the `create_service` call:
`serviceName` and `taskDefinition` are passed unconditionally (the latter
as an explicit `null` when `task_definition` is unset), followed by
`**not_null_args`. -/
def create_payload (s : EcsService) : List (String × Value) :=
  ("serviceName", Value.str (get_ecs_service_name s)) ::
  ("taskDefinition", valueOfOptStr (get_ecs_task_definition s)) ::
  create_args s

/-- The keyword-argument dict of the `describe_services` call in `_read`. -/
def describe_payload (s : EcsService) : List (String × Value) :=
  ("services", Value.list [Value.str (get_ecs_service_name s)]) ::
  optEntry "cluster" ((get_ecs_cluster_name s).map Value.str)

/-- The keyword-argument dict of the `delete_service` call in `_delete`. -/
def delete_payload (s : EcsService) : List (String × Value) :=
  ("service", Value.str (get_ecs_service_name s)) ::
  (optEntry "cluster" ((get_ecs_cluster_name s).map Value.str) ++
   optEntry "force" (s.force_delete.map Value.bool))

/-- A remote call issued by one of the lifecycle methods, with the payload
it carried. -/
inductive RemoteCall where
  | createSvc (payload : List (String × Value)) : RemoteCall
  | describeSvc (payload : List (String × Value)) : RemoteCall
  | deleteSvc (payload : List (String × Value)) : RemoteCall
  | updateSvc (payload : List (String × Value)) : RemoteCall

def RemoteCall.payload : RemoteCall → List (String × Value)
  | RemoteCall.createSvc p => p
  | RemoteCall.describeSvc p => p
  | RemoteCall.deleteSvc p => p
  | RemoteCall.updateSvc p => p

/-- The boto3 ECS client, as used by `service.py`: each operation takes
the keyword-argument dict and either returns a response dict or raises. -/
structure AwsApiClient where
  create_service : List (String × Value) → Except AwsExc (List (String × Value))
  describe_services : List (String × Value) → Except AwsExc (List (String × Value))
  delete_service : List (String × Value) → Except AwsExc (List (String × Value))

/-- Result of running one lifecycle method: the updated `self`, the
returned value, and the remote calls issued. -/
structure StepOut (α : Type) where
  state : EcsService
  result : α
  calls : List RemoteCall

/-- Method `_create` (source lines 85-155): build the payload, call
`create_service`; on a response, `create_response.get("service", {})` is
checked `is not None`; on success the whole response is cached in
`active_resource` and `True` is returned; any exception yields `False`. -/
def createStep (client : AwsApiClient) (s : EcsService) : StepOut Bool :=
  let payload := create_payload s
  match client.create_service payload with
  | Except.error _ => ⟨s, false, [RemoteCall.createSvc payload]⟩
  | Except.ok resp =>
    match (dictGet resp "service").getD (Value.dict []) with
    | Value.null => ⟨s, false, [RemoteCall.createSvc payload]⟩
    | _ => ⟨{ s with active_resource := some (Value.dict resp) }, true,
            [RemoteCall.createSvc payload]⟩

/-- The `for resource in resource_list` loop of `_read`: find the first
entry whose `serviceName` equals the service name and whose `status` is
`ACTIVE`; a non-matching entry is skipped; a non-dict entry raises
(`AttributeError` on `.get`), which the enclosing `except Exception`
catches. -/
def scanServices : List Value → String → Except Unit (Option Value)
  | [], _ => Except.ok none
  | r :: rest, nm =>
    match r with
    | Value.dict kvs =>
      if valueEqStr (dictGet kvs "serviceName") nm then
        if valueEqStr (dictGet kvs "status") "ACTIVE" then
          Except.ok (some (Value.dict kvs))
        else scanServices rest nm
      else scanServices rest nm
    | _ => Except.error ()

/-- Method `_read` (source lines 157-192): call `describe_services`; when the
response's `services` entry is a list, scan it for an `ACTIVE` entry with
the matching `serviceName` and cache it in `active_resource`; in every
other case (exception, missing or non-list `services`, no match,
mid-scan exception) `active_resource` keeps its prior value; the method
returns `self.active_resource`. -/
def readStep (client : AwsApiClient) (s : EcsService) : StepOut (Option Value) :=
  let payload := describe_payload s
  match client.describe_services payload with
  | Except.error _ => ⟨s, s.active_resource, [RemoteCall.describeSvc payload]⟩
  | Except.ok resp =>
    match dictGet resp "services" with
    | some (Value.list rs) =>
      match scanServices rs (get_ecs_service_name s) with
      | Except.ok (some r) =>
        ⟨{ s with active_resource := some r }, some r, [RemoteCall.describeSvc payload]⟩
      | _ => ⟨s, s.active_resource, [RemoteCall.describeSvc payload]⟩
    | _ => ⟨s, s.active_resource, [RemoteCall.describeSvc payload]⟩

/-- Method `_delete` (source lines 194-223): build the payload, set
`self.active_resource = None`, then call `delete_service`; `True` when
the call returns, `False` when it raises. -/
def deleteStep (client : AwsApiClient) (s : EcsService) : StepOut Bool :=
  let payload := delete_payload s
  let s1 := { s with active_resource := none }
  match client.delete_service payload with
  | Except.ok _ => ⟨s1, true, [RemoteCall.deleteSvc payload]⟩
  | Except.error _ => ⟨s1, false, [RemoteCall.deleteSvc payload]⟩

/-- Method `_update` (source lines 225-229): prints and returns `True`; no
remote call is made and no state is touched. -/
def updateStep (_client : AwsApiClient) (s : EcsService) : StepOut Bool :=
  ⟨s, true, []⟩

/-!
Spec-side definitions.  These follow the specification's words, to be
compared with the definitions embedded from the source: the declarative
field table of section 9 ("model each field as an optional value
explicitly, and implement projection as a declarative field-table (name,
translation, presence-predicate) iterated once"), and the describe-scan
selection predicate ("the service entry ... whose serviceName matches and
whose status is ACTIVE").
-/

/-- The spec's declarative field table for the service kind: each row is
a wire name paired with the field's optional declared value. -/
def field_table (s : EcsService) : List (String × Option Value) :=
  [("cluster", (get_ecs_cluster_name s).map Value.str),
   ("loadBalancers", s.load_balancers.map Value.list),
   ("serviceRegistries", s.service_registries.map Value.list),
   ("desiredCount", s.desired_count.map Value.int),
   ("clientToken", s.client_token.map Value.str),
   ("launchType", s.launch_type.map Value.str),
   ("capacityProviderStrategy", s.capacity_provider_strategy.map Value.list),
   ("platformVersion", s.platform_version.map Value.str),
   ("role", s.role.map Value.str),
   ("deploymentConfiguration", s.deployment_configuration.map Value.dict),
   ("placementConstraints", s.placement_constraints.map Value.list),
   ("placementStrategy", s.placement_strategy.map Value.list),
   ("networkConfiguration", s.network_configuration.map Value.dict),
   ("healthCheckGracePeriodSeconds", s.health_check_grace_period_seconds.map Value.int),
   ("schedulingStrategy", s.scheduling_strategy.map Value.str),
   ("deploymentController", s.deployment_controller.map Value.dict),
   ("tags", s.tags.map Value.list),
   ("enableECSManagedTags", s.enable_ecsmanaged_tags.map Value.bool),
   ("propagateTags", s.propagate_tags.map Value.str),
   ("enableExecuteCommand", s.enable_execute_command.map Value.bool)]

/-- One row of the table projected: present fields keep their wire name,
absent fields are dropped. -/
def projEntry (p : String × Option Value) : Option (String × Value) :=
  p.2.map (fun v => (p.1, v))

/-- The spec's Field Projector: iterate the declarative table once,
keeping exactly the present fields. -/
def spec_projection (s : EcsService) : List (String × Value) :=
  (field_table s).filterMap projEntry

/-- Spec-side selection predicate for the describe scan: a service entry
matches when it is a dict whose `serviceName` equals the requested name
and whose `status` is `ACTIVE`. -/
def isActiveMatch (r : Value) (nm : String) : Bool :=
  match r with
  | Value.dict kvs =>
    valueEqStr (dictGet kvs "serviceName") nm && valueEqStr (dictGet kvs "status") "ACTIVE"
  | _ => false

/-- The declared (caller-visible) fields of a descriptor: everything
except the `active_resource` cache. -/
def declaredFields (s : EcsService) : EcsService :=
  { s with active_resource := none }

/-- Whether a remote call returned without raising. -/
def exceptOk {α : Type} (x : Except AwsExc α) : Bool :=
  match x with
  | Except.ok _ => true
  | Except.error _ => false

/-!
Concrete fixtures used by counterexamples and witnesses.
-/

/-- A minimal descriptor: only the required `name` is set. -/
def d0 : EcsService :=
  { name := "web" }

/-- A cached observed state, as a describe call would have stored it. -/
def staleValue : Value :=
  Value.dict [("serviceName", Value.str "web"), ("status", Value.str "ACTIVE")]

/-- The minimal descriptor with a previously cached observed state. -/
def dStale : EcsService :=
  { name := "web", active_resource := some staleValue }

/-- The error message of the remote API when the service already exists. -/
def alreadyExistsMsg : String :=
  "An error occurred (InvalidParameterException) when calling the CreateService operation: Creation of service was not idempotent: the service web already exists"

/-- A client whose create call raises "already exists" while describe
shows an existing ACTIVE service whose identity matches `d0`. -/
def alreadyExistsClient : AwsApiClient :=
  { create_service := fun _ => Except.error (AwsExc.clientError alreadyExistsMsg),
    describe_services := fun _ => Except.ok
      [("services", Value.list [staleValue])],
    delete_service := fun _ => Except.ok [] }

/-- A client for an absent resource: describe returns an empty service
list, delete raises the not-found client error. -/
def absentClient : AwsApiClient :=
  { create_service := fun _ => Except.ok [],
    describe_services := fun _ => Except.ok [("services", Value.list [])],
    delete_service := fun _ => Except.error (AwsExc.clientError "An error occurred (ServiceNotFoundException) when calling the DeleteService operation: Service not found.") }

/-- A client whose describe succeeds with an empty service list and whose
other calls succeed with empty responses. -/
def emptyDescribeClient : AwsApiClient :=
  { create_service := fun _ => Except.ok [],
    describe_services := fun _ => Except.ok [("services", Value.list [])],
    delete_service := fun _ => Except.ok [] }

/-- A client on which every remote call raises. -/
def failAllClient : AwsApiClient :=
  { create_service := fun _ => Except.error (AwsExc.clientError "boom"),
    describe_services := fun _ => Except.error (AwsExc.clientError "boom"),
    delete_service := fun _ => Except.error (AwsExc.clientError "boom") }

/-- A client whose create call returns an empty response dict (no
`service` key at all). -/
def okEmptyClient : AwsApiClient :=
  { create_service := fun _ => Except.ok [],
    describe_services := fun _ => Except.ok [],
    delete_service := fun _ => Except.ok [] }

/-- A descriptor whose parent references are set as plain strings resp.
an object handle. -/
def dRefStr : EcsService :=
  { name := "web", cluster := some (ClusterRef.byName "prod"),
    task_definition := some (TaskDefRef.handle { family := "fam" }) }

/-- A descriptor whose parent references are set as an object handle
resp. a plain string. -/
def dRefHandle : EcsService :=
  { name := "web", cluster := some (ClusterRef.handle { name := "prod-cluster" }),
    task_definition := some (TaskDefRef.byName "app:3") }

/-!
Helper lemmas shared by the claim theorems.
-/

theorem filterMap_projEntry_cons (k : String) (o : Option Value)
    (rest : List (String × Option Value)) :
    ((k, o) :: rest).filterMap projEntry = optEntry k o ++ rest.filterMap projEntry := by
  cases o <;> simp [projEntry, optEntry]

/-- The `not_null_args` dict built by `_create` coincides with the spec's
declarative field-table projection. -/
theorem create_args_eq_spec (s : EcsService) :
    create_args s = spec_projection s := by
  simp [create_args, spec_projection, field_table, filterMap_projEntry_cons]

theorem mem_map_fst_optEntry (k k' : String) (o : Option Value) :
    (k ∈ (optEntry k' o).map Prod.fst) ↔ (k = k' ∧ o.isSome = true) := by
  cases o <;> simp [optEntry]

/-- A key appears in the projected table exactly when the table holds a
present value under that key. -/
theorem mem_keys_filterMap_projEntry (k : String) (t : List (String × Option Value)) :
    k ∈ (t.filterMap projEntry).map Prod.fst ↔ ∃ v, (k, some v) ∈ t := by
  induction t with
  | nil => simp
  | cons p rest ih =>
    obtain ⟨k', o⟩ := p
    cases o with
    | none => simp [filterMap_projEntry_cons, optEntry, ih]
    | some v =>
      simp [filterMap_projEntry_cons, optEntry, ih, Prod.mk.injEq]
      constructor
      · rintro (hk | ⟨w, hw⟩)
        · exact ⟨v, Or.inl ⟨hk, rfl⟩⟩
        · exact ⟨w, Or.inr hw⟩
      · rintro ⟨w, (⟨hk, _⟩ | hw)⟩
        · exact Or.inl hk
        · exact Or.inr ⟨w, hw⟩

/-- When the describe-scan loop selects an entry, that entry belongs to
the scanned list and satisfies the spec's selection predicate. -/
theorem scanServices_ok_mem (rs : List Value) (nm : String) (r : Value)
    (h : scanServices rs nm = Except.ok (some r)) :
    r ∈ rs ∧ isActiveMatch r nm = true := by
  induction rs with
  | nil => simp [scanServices] at h
  | cons x rest ih =>
    cases x with
    | dict kvs =>
      cases h1 : valueEqStr (dictGet kvs "serviceName") nm with
      | false =>
        simp only [scanServices, h1, Bool.false_eq_true, if_false] at h
        exact ⟨List.mem_cons_of_mem _ (ih h).1, (ih h).2⟩
      | true =>
        cases h2 : valueEqStr (dictGet kvs "status") "ACTIVE" with
        | false =>
          simp only [scanServices, h1, h2, Bool.false_eq_true, if_true, if_false] at h
          exact ⟨List.mem_cons_of_mem _ (ih h).1, (ih h).2⟩
        | true =>
          simp only [scanServices, h1, h2, if_true] at h
          obtain rfl : Value.dict kvs = r := by
            simpa using h
          exact ⟨List.mem_cons_self _ _, by simp [isActiveMatch, h1, h2]⟩
    | null => simp [scanServices] at h
    | bool b => simp [scanServices] at h
    | int n => simp [scanServices] at h
    | str t => simp [scanServices] at h
    | list xs => simp [scanServices] at h

/-- Overwriting the cache never changes the declared fields. -/
theorem declaredFields_set_cache (s : EcsService) (o : Option Value) :
    declaredFields { s with active_resource := o } = declaredFields s :=
  rfl

/-!
The claims.
-/

/-- C1 counterexample: the claim says a field left unset never appears as
a key in the create payload, but for the minimal descriptor `d0`, whose
`task_definition` is unset, the keyword arguments of the `create_service`
call still carry a `taskDefinition` key (with an explicit null value). -/
theorem c1_unset_taskdef_key_present :
    d0.task_definition = none ∧
    "taskDefinition" ∈ (create_payload d0).map Prod.fst :=
  ⟨rfl, by simp [create_payload]⟩

/-- C1 (amended): the create payload consists of `serviceName` and
`taskDefinition`, which are always present (`taskDefinition` as an
explicit null when `task_definition` is unset), followed by exactly the
wire-translated entries of the set fields: the `not_null_args` dict
equals the spec's declarative field-table projection, and a wire name
appears among its keys precisely when the corresponding field is set. -/
theorem c1_create_payload_exactness (s : EcsService) :
    create_payload s =
      ("serviceName", Value.str (get_ecs_service_name s)) ::
      ("taskDefinition", valueOfOptStr (get_ecs_task_definition s)) ::
      spec_projection s ∧
    ∀ k, (k ∈ (create_args s).map Prod.fst ↔ ∃ v, (k, some v) ∈ field_table s) := by
  constructor
  · simp [create_payload, create_args_eq_spec]
  · intro k
    rw [create_args_eq_spec, spec_projection]
    exact mem_keys_filterMap_projEntry k (field_table s)

/-- C2: the source's `_update` reports success unconditionally, touches no
state and issues no remote call at all, for every client and every
descriptor — it cannot carry changed fields to the remote API. -/
theorem c2_update_no_remote_call (client : AwsApiClient) (s : EcsService) :
    (updateStep client s).result = true ∧
    (updateStep client s).calls = [] ∧
    (updateStep client s).state = s :=
  ⟨rfl, rfl, rfl⟩

/-- C3 counterexample: the remote create call raises "already exists" and
the existing resource's identity matches the descriptor (describing it on
the same client yields the matching ACTIVE entry), yet `_create` reports
failure, not success. -/
theorem c3_already_exists_returns_false :
    alreadyExistsClient.create_service (create_payload d0) =
      Except.error (AwsExc.clientError alreadyExistsMsg) ∧
    (readStep alreadyExistsClient d0).result = some staleValue ∧
    (createStep alreadyExistsClient d0).result = false :=
  ⟨rfl, rfl, rfl⟩

/-- C3 (amended): every exception from the remote create call — the
already-exists client error included — makes `_create` report failure and
leave the descriptor state unchanged; no already-exists tolerance exists. -/
theorem c3_create_error_returns_false (client : AwsApiClient) (s : EcsService) (e : AwsExc)
    (h : client.create_service (create_payload s) = Except.error e) :
    (createStep client s).result = false ∧ (createStep client s).state = s := by
  simp [createStep, h]

/-- C3 witness: the amended statement applied to the already-exists client
and the minimal descriptor. -/
theorem c3_create_error_returns_false_witness :
    (createStep alreadyExistsClient d0).result = false ∧
    (createStep alreadyExistsClient d0).state = d0 :=
  c3_create_error_returns_false alreadyExistsClient d0 (AwsExc.clientError alreadyExistsMsg) rfl

/-- C4 counterexample: the resource is absent (describe reports no entry)
yet `_delete` reports failure, because the remote delete call raises
not-found and the catch-all treats every exception as failure. -/
theorem c4_delete_absent_returns_false :
    (readStep absentClient d0).result = none ∧
    (deleteStep absentClient d0).result = false :=
  ⟨rfl, rfl⟩

/-- C4 (amended): `_delete` is not idempotent at the wrapper level: it
returns `True` exactly when the remote delete call returns without
raising; deleting an already-absent resource, where the remote raises
not-found, returns `False`. -/
theorem c4_delete_result_iff_remote_ok (client : AwsApiClient) (s : EcsService) :
    (deleteStep client s).result = exceptOk (client.delete_service (delete_payload s)) := by
  cases h : client.delete_service (delete_payload s) <;> simp [deleteStep, exceptOk, h]

/-- C5 counterexample: the current describe response contains no matching
entry (the `services` list is empty), yet after `_read` the cache still
holds the stale prior value instead of holding no value: `_read` never
clears `active_resource`. -/
theorem c5_stale_cache_survives_empty_describe :
    emptyDescribeClient.describe_services (describe_payload dStale) =
      Except.ok [("services", Value.list [])] ∧
    (readStep emptyDescribeClient dStale).state.active_resource = some staleValue :=
  ⟨rfl, rfl⟩

/-- C5 (amended): after `_delete` the cache holds no value; after `_read`
the cache either retains its prior value unchanged or holds an entry of
the current describe response whose `serviceName` matches and whose
`status` is ACTIVE — but when the response contains no such entry the
stale prior value survives rather than being cleared. -/
theorem c5_cache_refresh_amended (client : AwsApiClient) (s : EcsService) :
    (deleteStep client s).state.active_resource = none ∧
    ((readStep client s).state.active_resource = s.active_resource ∨
      ∃ resp rs r,
        client.describe_services (describe_payload s) = Except.ok resp ∧
        dictGet resp "services" = some (Value.list rs) ∧
        r ∈ rs ∧ isActiveMatch r (get_ecs_service_name s) = true ∧
        (readStep client s).state.active_resource = some r) := by
  constructor
  · cases h : client.delete_service (delete_payload s) <;> simp [deleteStep, h]
  · cases h : client.describe_services (describe_payload s) with
    | error e => exact Or.inl (by simp [readStep, h])
    | ok resp =>
      cases h2 : dictGet resp "services" with
      | none => exact Or.inl (by simp [readStep, h, h2])
      | some v =>
        cases v with
        | list rs =>
          cases h3 : scanServices rs (get_ecs_service_name s) with
          | error u => exact Or.inl (by simp [readStep, h, h2, h3])
          | ok o =>
            cases o with
            | none => exact Or.inl (by simp [readStep, h, h2, h3])
            | some r =>
              obtain ⟨hmem, hmatch⟩ := scanServices_ok_mem rs _ r h3
              exact Or.inr ⟨resp, rs, r, rfl, h2, hmem, hmatch, by simp [readStep, h, h2, h3]⟩
        | null => exact Or.inl (by simp [readStep, h, h2])
        | bool b => exact Or.inl (by simp [readStep, h, h2])
        | int n => exact Or.inl (by simp [readStep, h, h2])
        | str t => exact Or.inl (by simp [readStep, h, h2])
        | dict kvs => exact Or.inl (by simp [readStep, h, h2])

/-- C6 counterexample: with an empty cache, a describe that fails with a
client error and a describe that succeeds but finds the resource absent
produce exactly the same `_read` outcome (state, returned value and call
trace), so a failed describe is not distinguishable from absence. -/
theorem c6_read_failure_indistinguishable :
    failAllClient.describe_services (describe_payload d0) =
      Except.error (AwsExc.clientError "boom") ∧
    emptyDescribeClient.describe_services (describe_payload d0) =
      Except.ok [("services", Value.list [])] ∧
    readStep failAllClient d0 = readStep emptyDescribeClient d0 :=
  ⟨rfl, rfl, rfl⟩

/-- C6 (amended): `_create` and `_delete` reflect a failed remote call in
their boolean result, but `_read` swallows a failed describe: it returns
the prior cached value, exactly as it does when the resource is absent. -/
theorem c6_failures_surfaced_except_read (client : AwsApiClient) (s : EcsService) (e : AwsExc) :
    (client.create_service (create_payload s) = Except.error e →
      (createStep client s).result = false) ∧
    (client.delete_service (delete_payload s) = Except.error e →
      (deleteStep client s).result = false) ∧
    (client.describe_services (describe_payload s) = Except.error e →
      readStep client s = ⟨s, s.active_resource, [RemoteCall.describeSvc (describe_payload s)]⟩) := by
  refine ⟨fun h => ?_, fun h => ?_, fun h => ?_⟩
  · simp [createStep, h]
  · simp [deleteStep, h]
  · simp [readStep, h]

/-- C6 witness: the amended statement applied to the all-failing client
and the minimal descriptor. -/
theorem c6_failures_surfaced_except_read_witness :
    (createStep failAllClient d0).result = false ∧
    (deleteStep failAllClient d0).result = false ∧
    readStep failAllClient d0 = ⟨d0, d0.active_resource, [RemoteCall.describeSvc (describe_payload d0)]⟩ :=
  ⟨(c6_failures_surfaced_except_read failAllClient d0 (AwsExc.clientError "boom")).1 rfl,
   (c6_failures_surfaced_except_read failAllClient d0 (AwsExc.clientError "boom")).2.1 rfl,
   (c6_failures_surfaced_except_read failAllClient d0 (AwsExc.clientError "boom")).2.2 rfl⟩

/-- C7: payload projection is deterministic and side-effect-free: two
descriptors with the same declared fields (the cache may differ) yield
identical create payloads, and running `_create` never modifies the
declared fields — only the `active_resource` cache. -/
theorem c7_projection_deterministic_pure (s t : EcsService) (client : AwsApiClient) :
    (declaredFields s = declaredFields t → create_payload s = create_payload t) ∧
    declaredFields (createStep client s).state = declaredFields s := by
  constructor
  · intro h
    calc create_payload s = create_payload (declaredFields s) := rfl
      _ = create_payload (declaredFields t) := by rw [h]
      _ = create_payload t := rfl
  · cases h : client.create_service (create_payload s) with
    | error e => simp [createStep, h, declaredFields_set_cache]
    | ok resp =>
      cases h2 : (dictGet resp "service").getD (Value.dict []) <;>
        simp [createStep, h, h2, declaredFields_set_cache]

/-- C7 witness: the determinism conclusion at two concrete descriptors
that differ only in their cached observed state. -/
theorem c7_projection_deterministic_pure_witness :
    create_payload dStale = create_payload d0 ∧
    declaredFields (createStep emptyDescribeClient dStale).state = declaredFields dStale :=
  ⟨(c7_projection_deterministic_pure dStale d0 emptyDescribeClient).1 rfl,
   (c7_projection_deterministic_pure dStale d0 emptyDescribeClient).2⟩

/-- Method `_create` always issues exactly one `create_service` call with the
create payload, whatever the outcome. -/
theorem createStep_calls (client : AwsApiClient) (s : EcsService) :
    (createStep client s).calls = [RemoteCall.createSvc (create_payload s)] := by
  cases h : client.create_service (create_payload s) with
  | error e => simp [createStep, h]
  | ok resp => cases h2 : (dictGet resp "service").getD (Value.dict []) <;> simp [createStep, h, h2]

/-- Method `_read` always issues exactly one `describe_services` call with the
describe payload. -/
theorem readStep_calls (client : AwsApiClient) (s : EcsService) :
    (readStep client s).calls = [RemoteCall.describeSvc (describe_payload s)] := by
  cases h : client.describe_services (describe_payload s) with
  | error e => simp [readStep, h]
  | ok resp =>
    cases h2 : dictGet resp "services" with
    | none => simp [readStep, h, h2]
    | some v =>
      cases v with
      | list rs =>
        cases h3 : scanServices rs (get_ecs_service_name s) with
        | error u => simp [readStep, h, h2, h3]
        | ok o => cases o <;> simp [readStep, h, h2, h3]
      | null => simp [readStep, h, h2]
      | bool b => simp [readStep, h, h2]
      | int n => simp [readStep, h, h2]
      | str t => simp [readStep, h, h2]
      | dict kvs => simp [readStep, h, h2]

/-- Method `_delete` always issues exactly one `delete_service` call with the
delete payload. -/
theorem deleteStep_calls (client : AwsApiClient) (s : EcsService) :
    (deleteStep client s).calls = [RemoteCall.deleteSvc (delete_payload s)] := by
  cases h : client.delete_service (delete_payload s) <;> simp [deleteStep, h]

/-- When the cluster reference is unset, the create payload carries no
`cluster` key. -/
theorem cluster_not_mem_create_payload (s : EcsService)
    (h : get_ecs_cluster_name s = none) :
    "cluster" ∉ (create_payload s).map Prod.fst := by
  intro hk
  simp only [create_payload, List.map_cons, List.mem_cons] at hk
  rcases hk with h1 | h1 | h1
  · simp at h1
  · simp at h1
  · rw [create_args_eq_spec, spec_projection, mem_keys_filterMap_projEntry] at h1
    obtain ⟨v, hv⟩ := h1
    simp [field_table, h] at hv

/-- The keys of the describe payload. -/
theorem mem_keys_describe_payload (k : String) (s : EcsService) :
    k ∈ (describe_payload s).map Prod.fst ↔
      k = "services" ∨ (k = "cluster" ∧ (get_ecs_cluster_name s).isSome = true) := by
  cases hgc : get_ecs_cluster_name s <;> simp [describe_payload, optEntry, hgc]

/-- The keys of the delete payload. -/
theorem mem_keys_delete_payload (k : String) (s : EcsService) :
    k ∈ (delete_payload s).map Prod.fst ↔
      k = "service" ∨ (k = "cluster" ∧ (get_ecs_cluster_name s).isSome = true) ∨
      (k = "force" ∧ s.force_delete.isSome = true) := by
  cases hgc : get_ecs_cluster_name s <;> cases hf : s.force_delete <;>
    simp [delete_payload, optEntry, hgc, hf]

/-- C8 counterexample: for the minimal descriptor, whose task-definition
reference is unset, the resolver yields no value, yet the remote create
request recorded in the call trace still carries a `taskDefinition` key. -/
theorem c8_unset_taskdef_key_in_remote_request :
    d0.task_definition = none ∧
    get_ecs_task_definition d0 = none ∧
    (createStep okEmptyClient d0).calls = [RemoteCall.createSvc (create_payload d0)] ∧
    "taskDefinition" ∈ (create_payload d0).map Prod.fst :=
  ⟨rfl, rfl, rfl, by simp [create_payload]⟩

/-- C8 (amended): the resolvers canonicalize both reference forms (string
kept as is, object handle replaced by its name resp. task family) and
yield no value when unset; an unset cluster contributes no `cluster` key
to any remote request, and an unset task definition contributes no
`taskDefinition` key to the describe and delete requests — but the
create request always carries a `taskDefinition` key, null when unset. -/
theorem c8_reference_resolution (s : EcsService) (client : AwsApiClient) :
    (∀ str, s.cluster = some (ClusterRef.byName str) → get_ecs_cluster_name s = some str) ∧
    (∀ c, s.cluster = some (ClusterRef.handle c) → get_ecs_cluster_name s = some c.name) ∧
    (∀ str, s.task_definition = some (TaskDefRef.byName str) →
      get_ecs_task_definition s = some str) ∧
    (∀ td, s.task_definition = some (TaskDefRef.handle td) →
      get_ecs_task_definition s = some td.get_task_family) ∧
    (s.cluster = none → get_ecs_cluster_name s = none ∧
      ∀ call ∈ (createStep client s).calls ++ (readStep client s).calls ++
          (deleteStep client s).calls,
        "cluster" ∉ call.payload.map Prod.fst) ∧
    (s.task_definition = none → get_ecs_task_definition s = none ∧
      ∀ call ∈ (readStep client s).calls ++ (deleteStep client s).calls,
        "taskDefinition" ∉ call.payload.map Prod.fst) := by
  refine ⟨?_, ?_, ?_, ?_, ?_, ?_⟩
  · intro str h
    simp [get_ecs_cluster_name, h]
  · intro c h
    simp [get_ecs_cluster_name, h]
  · intro str h
    simp [get_ecs_task_definition, h]
  · intro td h
    simp [get_ecs_task_definition, h]
  · intro h
    have hgc : get_ecs_cluster_name s = none := by simp [get_ecs_cluster_name, h]
    refine ⟨hgc, ?_⟩
    intro call hcall
    rw [createStep_calls, readStep_calls, deleteStep_calls] at hcall
    simp only [List.mem_append, List.mem_singleton] at hcall
    rcases hcall with (rfl | rfl) | rfl
    · exact cluster_not_mem_create_payload s hgc
    · show "cluster" ∉ (describe_payload s).map Prod.fst
      rw [mem_keys_describe_payload]
      simp [hgc]
    · show "cluster" ∉ (delete_payload s).map Prod.fst
      rw [mem_keys_delete_payload]
      simp [hgc]
  · intro h
    have hgt : get_ecs_task_definition s = none := by simp [get_ecs_task_definition, h]
    refine ⟨hgt, ?_⟩
    intro call hcall
    rw [readStep_calls, deleteStep_calls] at hcall
    simp only [List.mem_append, List.mem_singleton] at hcall
    rcases hcall with rfl | rfl
    · show "taskDefinition" ∉ (describe_payload s).map Prod.fst
      rw [mem_keys_describe_payload]
      simp
    · show "taskDefinition" ∉ (delete_payload s).map Prod.fst
      rw [mem_keys_delete_payload]
      simp

/-- C9: `_create` returns `True` exactly when the remote call returns
without raising and the response's `service` entry is not an explicit
null; in particular a response lacking the `service` key entirely counts
as success, since `get("service", {})` then yields the empty dict which
passes the `is not None` check. -/
theorem c9_create_success_iff (client : AwsApiClient) (s : EcsService) :
    ((createStep client s).result = true ↔
      ∃ resp, client.create_service (create_payload s) = Except.ok resp ∧
        dictGet resp "service" ≠ some Value.null) ∧
    (∀ resp, client.create_service (create_payload s) = Except.ok resp →
      dictGet resp "service" = none → (createStep client s).result = true) := by
  constructor
  · cases h : client.create_service (create_payload s) with
    | error e => simp [createStep, h]
    | ok resp =>
      cases h2 : dictGet resp "service" with
      | none => simp [createStep, h, h2]
      | some v =>
        cases v with
        | null => simp [createStep, h, h2]
        | bool b => simp [createStep, h, h2]
        | int n => simp [createStep, h, h2]
        | str t => simp [createStep, h, h2]
        | list xs => simp [createStep, h, h2]
        | dict kvs => simp [createStep, h, h2]
  · intro resp h h2
    simp [createStep, h, h2]

/-- C9 witness: a create call that returns an empty response dict (no
`service` key) is reported as success. -/
theorem c9_create_success_iff_witness :
    (createStep okEmptyClient d0).result = true :=
  (c9_create_success_iff okEmptyClient d0).2 [] rfl rfl

/-- C10: `_delete` clears the cached observed state unconditionally —
`active_resource` is `None` afterwards whatever the remote call does —
and still reports failure when the remote delete call raises. -/
theorem c10_cache_cleared_before_delete (client : AwsApiClient) (s : EcsService) :
    (deleteStep client s).state.active_resource = none ∧
    ∀ e, client.delete_service (delete_payload s) = Except.error e →
      (deleteStep client s).result = false := by
  constructor
  · cases h : client.delete_service (delete_payload s) <;> simp [deleteStep, h]
  · intro e h
    simp [deleteStep, h]

/-- C10 witness: a failing delete on a descriptor with a cached observed
state still clears the cache while reporting failure. -/
theorem c10_cache_cleared_before_delete_witness :
    (deleteStep failAllClient dStale).state.active_resource = none ∧
    (deleteStep failAllClient dStale).result = false :=
  ⟨(c10_cache_cleared_before_delete failAllClient dStale).1,
   (c10_cache_cleared_before_delete failAllClient dStale).2 (AwsExc.clientError "boom") rfl⟩

/-- C8 witness: the amended statement applied to concrete descriptors
covering both reference forms and the unset case. -/
theorem c8_reference_resolution_witness :
    get_ecs_cluster_name dRefStr = some "prod" ∧
    get_ecs_task_definition dRefStr = some "fam" ∧
    get_ecs_cluster_name dRefHandle = some "prod-cluster" ∧
    get_ecs_task_definition dRefHandle = some "app:3" ∧
    get_ecs_cluster_name d0 = none ∧
    get_ecs_task_definition d0 = none :=
  ⟨(c8_reference_resolution dRefStr okEmptyClient).1 "prod" rfl,
   (c8_reference_resolution dRefStr okEmptyClient).2.2.2.1 { family := "fam" } rfl,
   (c8_reference_resolution dRefHandle okEmptyClient).2.1 { name := "prod-cluster" } rfl,
   (c8_reference_resolution dRefHandle okEmptyClient).2.2.1 "app:3" rfl,
   ((c8_reference_resolution d0 okEmptyClient).2.2.2.2.1 rfl).1,
   ((c8_reference_resolution d0 okEmptyClient).2.2.2.2.2 rfl).1⟩
